import Mathlib

/-!
Shallow embedding of two Teleport discovery fetchers and the helpers they share:

* `lib/srv/discovery/fetchers/aws-sync/s3.go` — the AWS S3 bucket fetcher
  (`fetchS3Buckets`, `getS3BucketDetails`, `mergeS3Protos`, `listS3Buckets`, …);
* `lib/srv/discovery/fetchers/db/aws_redshift_serverless.go` — the Redshift
  Serverless database fetcher (`GetDatabases`, `getDatabasesFromWorkgroups`,
  `getDatabasesFromVPCEndpoints`, `getRSSWorkgroups`, `getRSSVPCEndpoints`, …).

Pure functions of the Go source are translated to Lean functions; provider (AWS
SDK) calls are modelled as record fields holding their responses (`Except` for
fallible calls); Go nil pointers become `Option`; goroutine fan-out through the
errgroup is sequentialized in dispatch order (output order within a cycle is
unspecified by design, and every task returns nil to the group, so the group
never cancels early); `proto.Clone`-style aliasing questions are settled on an
explicit heap model.  Definitions keep the Go names.
-/

namespace AwsSync

/-- A provider (AWS SDK) error: either a typed AWS error carrying an error
code, as matched by `errors.As(err, &awsErr)` in the Go source, or any other
error value. -/
inductive ProviderError where
  | awsErr (code : String) (message : String)
  | other (message : String)
deriving DecidableEq, Repr

/-- Errors produced through the `trace` package: a wrapped provider error
(`trace.Wrap(err, msg)`), or an aggregate (`trace.NewAggregate`).  A bare
`trace.Wrap(err)` with no message only attaches a stack trace in Go and is
modelled as the identity. -/
inductive TraceErr where
  | prov (e : ProviderError)
  | wrap (msg : String) (e : TraceErr)
  | aggregate (es : List TraceErr)

/-- Model of `trace.NewAggregate(errs...)`: nil (`none`) when the list is
empty, otherwise one aggregate error holding every entry in order. -/
def NewAggregate (es : List TraceErr) : Option TraceErr :=
  if es.isEmpty then none else some (.aggregate es)

/-- Model of `aws.ToString` / `aws.StringValue`: dereference a possibly-nil
string pointer, with "" for nil. -/
def awsToString (s : Option String) : String := s.getD ""

/-- Model of `aws.ToBool`: dereference a possibly-nil bool pointer, with
false for nil. -/
def awsToBool (b : Option Bool) : Bool := b.getD false

/-- Model of `strPtrToWrapper` (aws-sync helper, not under src/): converts a
possibly-nil string pointer into a possibly-absent wrapper value. -/
def strPtrToWrapper (s : Option String) : Option String := s

/-- Modelled from the spec: `sliceFilterPickFirst` is an aws-sync helper whose
source is not provided; by its name and call site it returns the first slice
element satisfying the filter, or nil when none matches. -/
def sliceFilterPickFirst (xs : List α) (p : α → Bool) : Option α := xs.find? p

/-! ### AWS S3 SDK record types (inbound interface of the fetcher) -/

/-- An entry of `ListBucketsOutput.Buckets` (`*s3.Bucket`): only the name is
read by the fetcher. -/
structure S3Bucket where
  name : Option String
deriving DecidableEq, Repr

/-- `s3.GetBucketPolicyOutput`. -/
structure GetBucketPolicyOutput where
  policy : Option String
deriving DecidableEq, Repr

/-- `s3.PolicyStatus` (pointer field of the policy-status output). -/
structure PolicyStatus where
  isPublic : Option Bool
deriving DecidableEq, Repr

/-- `s3.GetBucketPolicyStatusOutput`. -/
structure GetBucketPolicyStatusOutput where
  policyStatus : Option PolicyStatus
deriving DecidableEq, Repr

/-- `s3.Grantee`; the Go builder dereferences every field through
`aws.ToString`, assuming the grantee pointer itself is present. -/
structure S3Grantee where
  id : Option String
  displayName : Option String
  type : Option String
  uri : Option String
  emailAddress : Option String
deriving DecidableEq, Repr

/-- `s3.Grant`. -/
structure S3Grant where
  grantee : S3Grantee
  permission : Option String
deriving DecidableEq, Repr

/-- `s3.GetBucketAclOutput`. -/
structure GetBucketAclOutput where
  grants : List S3Grant
deriving DecidableEq, Repr

/-- An entry of `GetBucketTaggingOutput.TagSet` (`*s3.Tag`). -/
structure S3SdkTag where
  key : Option String
  value : Option String
deriving DecidableEq, Repr

/-- `s3.GetBucketTaggingOutput`. -/
structure GetBucketTaggingOutput where
  tagSet : List S3SdkTag
deriving DecidableEq, Repr

/-- `s3.GetBucketLocationOutput`. -/
structure GetBucketLocationOutput where
  locationConstraint : Option String
deriving DecidableEq, Repr

/-! ### Canonical snapshot records (accessgraph protos) -/

/-- `accessgraphv1alpha.AWSTag`: key plus a possibly-absent wrapper value. -/
structure AWSTag where
  key : String
  value : Option String
deriving DecidableEq, Repr

/-- `accessgraphv1alpha.AWSS3BucketACLGrantee`. -/
structure AWSS3BucketACLGrantee where
  id : String
  displayName : String
  type : String
  uri : String
  emailAddress : String
deriving DecidableEq, Repr

/-- `accessgraphv1alpha.AWSS3BucketACL`. -/
structure AWSS3BucketACL where
  grantee : AWSS3BucketACLGrantee
  permission : String
deriving DecidableEq, Repr

/-- `accessgraphv1alpha.AWSS3BucketV1`, the canonical bucket snapshot.
`PolicyDocument` is a nil-able byte slice in Go (`none` = never set);
`LastSyncTime` is an abstract timestamp. -/
structure AWSS3BucketV1 where
  name : String
  accountId : String
  lastSyncTime : Nat
  policyDocument : Option String
  isPublic : Bool
  acls : List AWSS3BucketACL
  tags : List AWSTag
deriving DecidableEq, Repr

/-- The `failedRequests` record of s3.go: one flag per independently fetched
field, plus the head/client-creation flag. -/
structure failedRequests where
  policyFailed : Bool
  failedPolicyStatus : Bool
  failedAcls : Bool
  failedTags : Bool
  headFailed : Bool
deriving DecidableEq, Repr

/-- `awsACLsToProtoACLs` from s3.go. -/
def awsACLsToProtoACLs (grants : List S3Grant) : List AWSS3BucketACL :=
  grants.map fun grant =>
    { grantee :=
        { id := awsToString grant.grantee.id
          displayName := awsToString grant.grantee.displayName
          type := awsToString grant.grantee.type
          uri := awsToString grant.grantee.uri
          emailAddress := awsToString grant.grantee.emailAddress }
      permission := awsToString grant.permission }

/-- `awsS3Bucket` from s3.go: builds the canonical snapshot from the raw
outputs, leaving each decoration field at its zero value when the
corresponding output pointer is nil.  `now` stands for `timestamppb.Now()`. -/
def awsS3Bucket (name : String) (policy : Option GetBucketPolicyOutput)
    (policyStatus : Option GetBucketPolicyStatusOutput)
    (acls : Option GetBucketAclOutput) (tags : Option GetBucketTaggingOutput)
    (accountID : String) (now : Nat) : AWSS3BucketV1 :=
  let s : AWSS3BucketV1 :=
    { name := name, accountId := accountID, lastSyncTime := now
      policyDocument := none, isPublic := false, acls := [], tags := [] }
  let s := match policy with
    | some p => { s with policyDocument := some (awsToString p.policy) }
    | none => s
  let s := match policyStatus with
    | some ps => match ps.policyStatus with
      | some inner => { s with isPublic := awsToBool inner.isPublic }
      | none => s
    | none => s
  let s := match acls with
    | some a => { s with acls := awsACLsToProtoACLs a.grants }
    | none => s
  let s := match tags with
    | some t => { s with tags := t.tagSet.map fun tag =>
        { key := awsToString tag.key, value := strPtrToWrapper tag.value } }
    | none => s
  s

/-- The field-substitution core of `mergeS3Protos`: the mutations applied to
`proto.Clone(new)`, one conditional per failure flag. -/
def mergeS3Fields (existing new : AWSS3BucketV1) (failedReqs : failedRequests) :
    AWSS3BucketV1 :=
  let clone := new
  let clone := if failedReqs.policyFailed then
    { clone with policyDocument := existing.policyDocument } else clone
  let clone := if failedReqs.failedPolicyStatus then
    { clone with isPublic := existing.isPublic } else clone
  let clone := if failedReqs.failedAcls then
    { clone with acls := existing.acls } else clone
  let clone := if failedReqs.failedTags then
    { clone with tags := existing.tags } else clone
  clone

/-- `mergeS3Protos` from s3.go: reconcile a fresh snapshot against the prior
one under the per-field failure flags; nil prior returns fresh, nil fresh
returns prior. -/
def mergeS3Protos (existing new : Option AWSS3BucketV1)
    (failedReqs : failedRequests) : Option AWSS3BucketV1 :=
  match existing with
  | none => new
  | some e =>
    match new with
    | none => some e
    | some n => some (mergeS3Fields e n failedReqs)

/-- `isS3BucketPolicyNotFound` from s3.go. -/
def isS3BucketPolicyNotFound : ProviderError → Bool
  | .awsErr code _ => code == "NoSuchBucketPolicy"
  | .other _ => false

/-- `isS3BucketNoTagSet` from s3.go. -/
def isS3BucketNoTagSet : ProviderError → Bool
  | .awsErr code _ => code == "NoSuchTagSet"
  | .other _ => false

/-! ### The S3 client and the fetcher environment -/

/-- The S3 client capability used by the fetcher, modelled by the responses of
its operations for the current cycle: a paged-free listing call, the
per-bucket location call, and the four per-bucket detail calls.  Each fallible
call is an `Except` over the provider's error type. -/
structure S3Client where
  listBuckets : Except ProviderError (List S3Bucket)
  getBucketLocation : Option String → Except ProviderError GetBucketLocationOutput
  getBucketPolicy : Option String → Except ProviderError GetBucketPolicyOutput
  getBucketPolicyStatus :
    Option String → Except ProviderError GetBucketPolicyStatusOutput
  getBucketAcl : Option String → Except ProviderError GetBucketAclOutput
  getBucketTagging : Option String → Except ProviderError GetBucketTaggingOutput

/-- Modelled from the spec: `awsutil.GetKnownRegions()[0]`, the first known
AWS region, used when no region is configured (the helper is not under
src/). -/
def awsKnownRegionsHead : String := "us-east-1"

/-- The `awsFetcher` receiver state read by the S3 functions: the per-region
client factory (`CloudClients.GetAWSS3Client`), the configured regions, the
account id, the previous cycle's result set (`a.lastResult.S3Buckets`), and
the cycle timestamp. -/
structure AwsFetcher where
  getAWSS3Client : String → Except ProviderError S3Client
  regions : List String
  accountID : String
  lastResultS3 : List AWSS3BucketV1
  now : Nat

/-- The `s3Details` record of s3.go. -/
structure s3Details where
  policy : Option GetBucketPolicyOutput
  policyStatus : Option GetBucketPolicyStatusOutput
  acls : Option GetBucketAclOutput
  tags : Option GetBucketTaggingOutput
deriving DecidableEq, Repr

/-- The wrapped error recorded for one failed detail call of
`getS3BucketDetails`: the source formats "failed to fetch bucket %q <what>"
around the provider error. -/
def s3DetailErrEntry (what : String) (bucket : S3Bucket) (e : ProviderError) :
    TraceErr :=
  .wrap ("failed to fetch bucket " ++ awsToString bucket.name ++ what) (.prov e)

/-- `getS3BucketDetails` from s3.go: create a client for the bucket's region,
then issue the four independently failing detail calls, recording each
failure as a wrapped error plus a field flag — except errors classified as
legitimate absence (`NoSuchBucketPolicy` for the two policy calls,
`NoSuchTagSet` for the tags call), which are treated as an empty value.  An
errored call leaves its output pointer absent. -/
def getS3BucketDetails (a : AwsFetcher) (bucket : S3Bucket)
    (bucketRegion : String) : s3Details × failedRequests × List TraceErr :=
  match a.getAWSS3Client bucketRegion with
  | .error e =>
    (⟨none, none, none, none⟩,
     { headFailed := true, policyFailed := true, failedPolicyStatus := true
       failedAcls := true, failedTags := true },
     [.wrap ("failed to create s3 client for bucket " ++ awsToString bucket.name)
        (.prov e)])
  | .ok c =>
    let (policy, policyFailed, errs1) :=
      match c.getBucketPolicy bucket.name with
      | .ok o => (some o, false, ([] : List TraceErr))
      | .error e =>
        if isS3BucketPolicyNotFound e then (none, false, [])
        else (none, true, [s3DetailErrEntry " inline policy" bucket e])
    let (policyStatus, failedPolicyStatus, errs2) :=
      match c.getBucketPolicyStatus bucket.name with
      | .ok o => (some o, false, ([] : List TraceErr))
      | .error e =>
        if isS3BucketPolicyNotFound e then (none, false, [])
        else (none, true, [s3DetailErrEntry " policy status" bucket e])
    let (acls, failedAcls, errs3) :=
      match c.getBucketAcl bucket.name with
      | .ok o => (some o, false, ([] : List TraceErr))
      | .error e =>
        (none, true, [s3DetailErrEntry " acls policies" bucket e])
    let (tags, failedTags, errs4) :=
      match c.getBucketTagging bucket.name with
      | .ok o => (some o, false, ([] : List TraceErr))
      | .error e =>
        if isS3BucketNoTagSet e then (none, false, [])
        else (none, true, [s3DetailErrEntry " tags" bucket e])
    (⟨policy, policyStatus, acls, tags⟩,
     { policyFailed := policyFailed, failedPolicyStatus := failedPolicyStatus
       failedAcls := failedAcls, failedTags := failedTags, headFailed := false },
     errs1 ++ errs2 ++ errs3 ++ errs4)

/-- The contribution of the policy call to `getS3BucketDetails`: output
pointer, failure flag, recorded errors. -/
def policyFetchOf (c : S3Client) (bucket : S3Bucket) :
    Option GetBucketPolicyOutput × Bool × List TraceErr :=
  match c.getBucketPolicy bucket.name with
  | .ok o => (some o, false, [])
  | .error e =>
    if isS3BucketPolicyNotFound e then (none, false, [])
    else (none, true, [s3DetailErrEntry " inline policy" bucket e])

/-- The contribution of the policy-status call to `getS3BucketDetails`. -/
def statusFetchOf (c : S3Client) (bucket : S3Bucket) :
    Option GetBucketPolicyStatusOutput × Bool × List TraceErr :=
  match c.getBucketPolicyStatus bucket.name with
  | .ok o => (some o, false, [])
  | .error e =>
    if isS3BucketPolicyNotFound e then (none, false, [])
    else (none, true, [s3DetailErrEntry " policy status" bucket e])

/-- The contribution of the ACL call to `getS3BucketDetails`. -/
def aclFetchOf (c : S3Client) (bucket : S3Bucket) :
    Option GetBucketAclOutput × Bool × List TraceErr :=
  match c.getBucketAcl bucket.name with
  | .ok o => (some o, false, [])
  | .error e => (none, true, [s3DetailErrEntry " acls policies" bucket e])

/-- The contribution of the tagging call to `getS3BucketDetails`. -/
def tagFetchOf (c : S3Client) (bucket : S3Bucket) :
    Option GetBucketTaggingOutput × Bool × List TraceErr :=
  match c.getBucketTagging bucket.name with
  | .ok o => (some o, false, [])
  | .error e =>
    if isS3BucketNoTagSet e then (none, false, [])
    else (none, true, [s3DetailErrEntry " tags" bucket e])

/-- The `getBucketRegion` closure returned by `listS3Buckets`: resolve a
bucket's region through `GetBucketLocation`, defaulting to "us-east-1" when
the call succeeds with a nil location constraint. -/
def s3GetBucketRegion (client : S3Client) (bucket : Option String) :
    Except TraceErr String :=
  match client.getBucketLocation bucket with
  | .error e =>
    .error (.wrap ("failed to fetch bucket " ++ awsToString bucket ++ " region")
      (.prov e))
  | .ok rsp =>
    match rsp.locationConstraint with
    | none => .ok "us-east-1"
    | some s => .ok s

/-- `listS3Buckets` from s3.go: create a client in the first configured (or
first known) region, list all buckets, and return them together with the
region-resolving closure. -/
def listS3Buckets (a : AwsFetcher) :
    Except TraceErr (List S3Bucket × (Option String → Except TraceErr String)) :=
  let region := match a.regions with
    | [] => awsKnownRegionsHead
    | r :: _ => r
  match a.getAWSS3Client region with
  | .error e => .error (.prov e)
  | .ok client =>
    match client.listBuckets with
    | .error e => .error (.prov e)
    | .ok rsp => .ok (rsp, s3GetBucketRegion client)

/-- The pair handed to `collect` by one per-bucket task of `fetchS3Buckets`:
the merged snapshot and the task's aggregated error. -/
def s3TaskPair (a : AwsFetcher)
    (getBucketRegion : Option String → Except TraceErr String) (bucket : S3Bucket) :
    Option AWSS3BucketV1 × Option TraceErr :=
  let existingBucket := sliceFilterPickFirst a.lastResultS3 fun b =>
    b.name == awsToString bucket.name && b.accountId == a.accountID
  match getBucketRegion bucket.name with
  | .error err =>
    let errs : List TraceErr := [err]
    let failedReqs : failedRequests :=
      { policyFailed := true, failedPolicyStatus := true, failedAcls := true
        failedTags := true, headFailed := false }
    let newBucket :=
      awsS3Bucket (awsToString bucket.name) none none none none a.accountID a.now
    (mergeS3Protos existingBucket (some newBucket) failedReqs, NewAggregate errs)
  | .ok bucketRegion =>
    let (details, failedReqs, errsL) := getS3BucketDetails a bucket bucketRegion
    let newBucket := awsS3Bucket (awsToString bucket.name) details.policy
      details.policyStatus details.acls details.tags a.accountID a.now
    (mergeS3Protos existingBucket (some newBucket) failedReqs,
     NewAggregate (([] : List TraceErr) ++ errsL))

/-- One per-bucket task as passed to `eG.Go`: it reports its outcome through
`collect` (first component) and its Go return value to the errgroup is the
second component — literally `nil` on both source paths. -/
def s3BucketTask (a : AwsFetcher)
    (getBucketRegion : Option String → Except TraceErr String) (bucket : S3Bucket) :
    (Option AWSS3BucketV1 × Option TraceErr) × Option TraceErr :=
  (s3TaskPair a getBucketRegion bucket, none)

/-- The mutex-guarded accumulation of every task's `collect` call, in dispatch
order (the concurrent interleaving only permutes the lists; every task calls
`collect` exactly once): the snapshot list and the error list. -/
def runS3Tasks (a : AwsFetcher)
    (getBucketRegion : Option String → Except TraceErr String) :
    List S3Bucket → List AWSS3BucketV1 × List TraceErr
  | [] => ([], [])
  | bucket :: rest =>
    let r := (s3BucketTask a getBucketRegion bucket).1
    let acc := runS3Tasks a getBucketRegion rest
    (match r.1 with
     | some s => s :: acc.1
     | none => acc.1,
     match r.2 with
     | some e => e :: acc.2
     | none => acc.2)

/-- `fetchS3Buckets` from s3.go: list the buckets (returning the previous
cycle's result set and the wrapped error when the listing fails), fan the
per-bucket tasks out, wait for all of them, and return the collected
snapshots with the aggregate of the collected errors. -/
def fetchS3Buckets (a : AwsFetcher) : List AWSS3BucketV1 × Option TraceErr :=
  match listS3Buckets a with
  | .error e => (a.lastResultS3, some e)
  | .ok (buckets, getBucketRegion) =>
    let (s3s, errs) := runS3Tasks a getBucketRegion buckets
    (s3s, NewAggregate errs)

/-! ### Heap model of `mergeS3Protos`

The Go function receives pointers into long-lived state and must not write
through them; it clones `new` and mutates only the clone.  The heap is a list
of cells, a pointer is an index, and `proto.Clone` allocates a fresh cell. -/

/-- A heap of bucket snapshots; a pointer is an index into `cells`. -/
structure S3Heap where
  cells : List AWSS3BucketV1
deriving DecidableEq, Repr

/-- `mergeS3Protos` over the heap model: nil-pointer cases return an input
pointer unchanged; otherwise the clone of `new` with the flagged fields
substituted from `existing` is written to a freshly allocated cell, and the
pointer to that cell is returned.  A dangling pointer (impossible at the call
sites) yields `none` with the heap untouched. -/
def mergeS3ProtosRef (h : S3Heap) (existing new : Option Nat)
    (failedReqs : failedRequests) : S3Heap × Option Nat :=
  match existing with
  | none => (h, new)
  | some pe =>
    match new with
    | none => (h, some pe)
    | some pn =>
      match h.cells[pe]?, h.cells[pn]? with
      | some e, some n =>
        (⟨h.cells ++ [mergeS3Fields e n failedReqs]⟩, some h.cells.length)
      | _, _ => (h, none)

end AwsSync

namespace RedshiftServerless

open AwsSync (ProviderError TraceErr awsToString)

/-- Modelled from the spec: `maxAWSPages`, the fixed hard page cap of the db
fetchers; the constant's definition is not under src/ and the claims do not
depend on its numeric value, fixed here at 20. -/
def maxAWSPages : Nat := 20

/-- One step of a paginated provider listing: a page of items together with
the SDK's last-page signal, or a provider error that aborts the listing. -/
inductive PageResult (α : Type) where
  | page (items : List α) (last : Bool)
  | fail (e : ProviderError)

/-- The SDK pagination loop as driven by the `fn` callback of
`getRSSWorkgroups` / `getRSSVPCEndpoints`: collect the next page, then
continue while `fn` returned true (the collected page count is still at most
`maxAWSPages`) and the provider has not signalled the last page; a provider
failure stops the listing with the error.  Lean's acceptance of this
definition is the termination argument: the recursion is measured by the
remaining page budget. -/
def awsPagesLoop (source : Nat → PageResult α) (i : Nat)
    (pages : List (List α)) : List (List α) × Option ProviderError :=
  match source i with
  | .fail e => (pages, some e)
  | .page items last =>
    if h : (pages ++ [items]).length ≤ maxAWSPages ∧ last = false then
      awsPagesLoop source (i + 1) (pages ++ [items])
    else (pages ++ [items], none)
termination_by maxAWSPages + 1 - pages.length
decreasing_by
  simp only [List.length_append, List.length_cons, List.length_nil] at h ⊢
  omega

/-- Modelled from the spec: `libcloudaws.ConvertRequestFailureError` (not
under src/) converts AWS request failures into typed trace errors; the
classification only affects log levels in the code under study, so it is
modelled as the plain injection. -/
def ConvertRequestFailureError (e : ProviderError) : TraceErr := .prov e

/-- Modelled from the spec: `libcloudaws.IsResourceAvailable` (not under
src/) — "skip any resource whose provider-reported status is not
'available'-equivalent": a case-insensitive comparison with "available";
nil statuses are not available. -/
def IsResourceAvailable (status : Option String) : Bool :=
  String.mk ((awsToString status).data.map Char.toLower) == "available"

/-- `redshiftserverless.Workgroup`: the fields read by the fetcher. -/
structure Workgroup where
  workgroupName : Option String
  workgroupArn : Option String
  status : Option String
deriving DecidableEq, Repr

/-- `redshiftserverless.EndpointAccess`: the fields read by the fetcher. -/
structure EndpointAccess where
  endpointName : Option String
  workgroupName : Option String
  endpointStatus : Option String
deriving DecidableEq, Repr

/-- `redshiftserverless.Tag`. -/
structure RSSTag where
  key : Option String
  value : Option String
deriving DecidableEq, Repr

/-- The `workgroupWithTags` record of aws_redshift_serverless.go. -/
structure workgroupWithTags where
  workgroup : Workgroup
  tags : List RSSTag
deriving DecidableEq, Repr

/-- The canonical database record produced by the snapshot builders (the
`types.Database` surface the claims touch: a name, the attributed tags, and
the originating endpoint when built from a VPC endpoint). -/
structure Database where
  name : String
  labels : List RSSTag
  endpointName : Option String
deriving DecidableEq, Repr

/-- The Redshift Serverless client capability (`rssAPI`), modelled by this
cycle's responses: two paginated listings and the tag listing. -/
structure RSSClient where
  listWorkgroupsPages : Nat → PageResult Workgroup
  listEndpointAccessPages : Nat → PageResult EndpointAccess
  listTagsForResource : Option String → Except ProviderError (List RSSTag)

/-- The `awsFetcherConfig` surface used by `GetDatabases`: the client factory
result for the configured region. -/
structure awsFetcherConfig where
  getClient : Except ProviderError RSSClient

/-- Modelled from the spec: `common.NewDatabaseFromRedshiftServerlessWorkgroup`
(not under src/) — the Snapshot Builder "maps raw provider records plus
enrichment data into the canonical output record"; the spec gives it no
failure condition, so the conversion always succeeds.  The `Except` shape
mirrors the call site. -/
def NewDatabaseFromRedshiftServerlessWorkgroup (workgroup : Workgroup)
    (tags : List RSSTag) : Except TraceErr Database :=
  .ok { name := awsToString workgroup.workgroupName, labels := tags
        endpointName := none }

/-- Modelled from the spec: `common.NewDatabaseFromRedshiftServerlessVPCEndpoint`
(not under src/) — builds the endpoint's canonical record attributed with the
owning workgroup's tags; always succeeds, the `Except` shape mirrors the call
site. -/
def NewDatabaseFromRedshiftServerlessVPCEndpoint (endpoint : EndpointAccess)
    (workgroup : Workgroup) (tags : List RSSTag) : Except TraceErr Database :=
  .ok { name := awsToString workgroup.workgroupName ++ "-" ++
          awsToString endpoint.endpointName
        labels := tags, endpointName := endpoint.endpointName }

/-- `getRSSWorkgroups` from aws_redshift_serverless.go: drive the workgroup
listing through the pagination loop, flatten the collected pages in arrival
order, and convert the provider error if any.  On error the Go function still
returns the flattened pages gathered so far (its callers check the error
first). -/
def getRSSWorkgroups (client : RSSClient) :
    List Workgroup × Option TraceErr :=
  let (pages, err) := awsPagesLoop client.listWorkgroupsPages 0 []
  (pages.flatten, err.map ConvertRequestFailureError)

/-- `getRSSVPCEndpoints` from aws_redshift_serverless.go. -/
def getRSSVPCEndpoints (client : RSSClient) :
    List EndpointAccess × Option TraceErr :=
  let (pages, err) := awsPagesLoop client.listEndpointAccessPages 0 []
  (pages.flatten, err.map ConvertRequestFailureError)

/-- `getRSSResourceTags` from aws_redshift_serverless.go: the tag enricher —
every error is logged and swallowed, yielding nil tags. -/
def getRSSResourceTags (client : RSSClient) (arn : Option String) :
    List RSSTag :=
  match client.listTagsForResource arn with
  | .error _ => []
  | .ok output => output

/-- `findWorkgroupWithName` from aws_redshift_serverless.go: first workgroup
whose name matches, if any. -/
def findWorkgroupWithName (workgroups : List workgroupWithTags) (name : String) :
    Option workgroupWithTags :=
  match workgroups with
  | [] => none
  | workgroup :: rest =>
    if awsToString workgroup.workgroup.workgroupName == name then some workgroup
    else findWorkgroupWithName rest name

/-- The per-workgroup loop body of `getDatabasesFromWorkgroups`: skip
unavailable workgroups, enrich with tags, convert (skipping on conversion
failure), and accumulate both the databases and the tagged workgroups in
listing order. -/
def workgroupsToDatabases (client : RSSClient) :
    List Workgroup → List Database × List workgroupWithTags
  | [] => ([], [])
  | workgroup :: rest =>
    if IsResourceAvailable workgroup.status = false then
      workgroupsToDatabases client rest
    else
      let tags := getRSSResourceTags client workgroup.workgroupArn
      match NewDatabaseFromRedshiftServerlessWorkgroup workgroup tags with
      | .error _ => workgroupsToDatabases client rest
      | .ok database =>
        let acc := workgroupsToDatabases client rest
        (database :: acc.1, ⟨workgroup, tags⟩ :: acc.2)

/-- `getDatabasesFromWorkgroups` from aws_redshift_serverless.go: a listing
failure aborts with the wrapped error; otherwise every available workgroup is
converted into a database record. -/
def getDatabasesFromWorkgroups (client : RSSClient) :
    Except TraceErr (List Database × List workgroupWithTags) :=
  let (workgroups, err) := getRSSWorkgroups client
  match err with
  | some e => .error e
  | none => .ok (workgroupsToDatabases client workgroups)

/-- The per-endpoint loop body of `getDatabasesFromVPCEndpoints`: skip
endpoints whose referenced workgroup is absent (log only), skip unavailable
endpoints, convert the rest attributed with the owning workgroup's tags
(skipping on conversion failure). -/
def vpcEndpointsToDatabases (workgroups : List workgroupWithTags) :
    List EndpointAccess → List Database
  | [] => []
  | endpoint :: rest =>
    match findWorkgroupWithName workgroups (awsToString endpoint.workgroupName) with
    | none => vpcEndpointsToDatabases workgroups rest
    | some workgroup =>
      if IsResourceAvailable endpoint.endpointStatus = false then
        vpcEndpointsToDatabases workgroups rest
      else
        match NewDatabaseFromRedshiftServerlessVPCEndpoint endpoint
            workgroup.workgroup workgroup.tags with
        | .error _ => vpcEndpointsToDatabases workgroups rest
        | .ok database => database :: vpcEndpointsToDatabases workgroups rest

/-- `getDatabasesFromVPCEndpoints` from aws_redshift_serverless.go: a listing
failure aborts with the wrapped error; otherwise the matched, available
endpoints are converted. -/
def getDatabasesFromVPCEndpoints (workgroups : List workgroupWithTags)
    (client : RSSClient) : Except TraceErr (List Database) :=
  let (endpoints, err) := getRSSVPCEndpoints client
  match err with
  | some e => .error e
  | none => .ok (vpcEndpointsToDatabases workgroups endpoints)

/-- `GetDatabases` from aws_redshift_serverless.go: client-creation and
workgroup-listing failures abort the cycle with the error; a VPC-endpoint
listing failure is only logged (at debug level for access-denied, warning
otherwise) and the nil endpoint slice is appended, so the cycle still
succeeds with the workgroup databases. -/
def GetDatabases (cfg : awsFetcherConfig) : Except TraceErr (List Database) :=
  match cfg.getClient with
  | .error e => .error (.prov e)
  | .ok client =>
    match getDatabasesFromWorkgroups client with
    | .error e => .error e
    | .ok (databases, workgroups) =>
      if workgroups.length > 0 then
        match getDatabasesFromVPCEndpoints workgroups client with
        | .error _ => .ok (databases ++ [])
        | .ok vpcEndpointDatabases => .ok (databases ++ vpcEndpointDatabases)
      else .ok databases

end RedshiftServerless

/-! ## Concrete fixtures used by the witness and counterexample theorems -/

namespace AwsSync

/-- A prior-cycle snapshot of bucket "b1" with every decoration field set. -/
def wPriorB1 : AWSS3BucketV1 :=
  { name := "b1", accountId := "acc", lastSyncTime := 1
    policyDocument := some "old policy document", isPublic := true
    acls := [{ grantee := { id := "g1", displayName := "G", type := "CanonicalUser"
                            uri := "", emailAddress := "" }
               permission := "FULL_CONTROL" }]
    tags := [{ key := "env", value := some "prod" }] }

/-- A fresh snapshot of bucket "b1" as built in the current cycle. -/
def wFreshB1 : AWSS3BucketV1 :=
  { name := "b1", accountId := "acc", lastSyncTime := 7
    policyDocument := some "new policy document", isPublic := false
    acls := [], tags := [] }

/-- A client whose bucket listing fails. -/
def c3Client : S3Client :=
  { listBuckets := .error (.other "listing transport failure")
    getBucketLocation := fun _ => .ok ⟨none⟩
    getBucketPolicy := fun _ => .ok ⟨some "d"⟩
    getBucketPolicyStatus := fun _ => .ok ⟨some ⟨some false⟩⟩
    getBucketAcl := fun _ => .ok ⟨[]⟩
    getBucketTagging := fun _ => .ok ⟨[]⟩ }

/-- A fetcher whose top-level listing fails while it holds a prior result. -/
def c3Fetcher : AwsFetcher :=
  { getAWSS3Client := fun _ => .ok c3Client, regions := ["eu-west-1"]
    accountID := "acc", lastResultS3 := [wPriorB1], now := 7 }

/-- A client answering the location call with a nil location constraint. -/
def c10Client : S3Client :=
  { listBuckets := .ok [⟨some "b1"⟩]
    getBucketLocation := fun _ => .ok ⟨none⟩
    getBucketPolicy := fun _ => .ok ⟨some "d"⟩
    getBucketPolicyStatus := fun _ => .ok ⟨some ⟨some false⟩⟩
    getBucketAcl := fun _ => .ok ⟨[]⟩
    getBucketTagging := fun _ => .ok ⟨[]⟩ }

/-- A client exercising all four detail-call outcomes: a soft policy absence,
a hard policy-status failure, a hard ACL failure, and a soft tag absence. -/
def c2Client : S3Client :=
  { listBuckets := .ok [⟨some "b1"⟩]
    getBucketLocation := fun _ => .ok ⟨some "eu-west-1"⟩
    getBucketPolicy := fun _ => .error (.awsErr "NoSuchBucketPolicy" "absent")
    getBucketPolicyStatus := fun _ => .error (.other "status transport failure")
    getBucketAcl := fun _ => .error (.awsErr "AccessDenied" "denied")
    getBucketTagging := fun _ => .error (.awsErr "NoSuchTagSet" "no tags") }

/-- A fetcher built around `c2Client`. -/
def c2Fetcher : AwsFetcher :=
  { getAWSS3Client := fun _ => .ok c2Client, regions := ["eu-west-1"]
    accountID := "acc", lastResultS3 := [wPriorB1], now := 7 }

/-- A client whose region lookup fails for every bucket. -/
def c6Client : S3Client :=
  { listBuckets := .ok [⟨some "b1"⟩]
    getBucketLocation := fun _ => .error (.other "location failure")
    getBucketPolicy := fun _ => .ok ⟨some "d"⟩
    getBucketPolicyStatus := fun _ => .ok ⟨some ⟨some false⟩⟩
    getBucketAcl := fun _ => .ok ⟨[]⟩
    getBucketTagging := fun _ => .ok ⟨[]⟩ }

/-- A fetcher built around `c6Client`, holding "b1" in its prior result. -/
def c6Fetcher : AwsFetcher :=
  { getAWSS3Client := fun _ => .ok c6Client, regions := ["eu-west-1"]
    accountID := "acc", lastResultS3 := [wPriorB1], now := 7 }

/-- A client listing two buckets whose ACL calls fail. -/
def c8Client : S3Client :=
  { listBuckets := .ok [⟨some "b1"⟩, ⟨some "b2"⟩]
    getBucketLocation := fun _ => .ok ⟨some "eu-west-1"⟩
    getBucketPolicy := fun _ => .ok ⟨some "d"⟩
    getBucketPolicyStatus := fun _ => .ok ⟨some ⟨some false⟩⟩
    getBucketAcl := fun _ => .error (.other "acl failure")
    getBucketTagging := fun _ => .ok ⟨[]⟩ }

/-- A fetcher built around `c8Client`. -/
def c8Fetcher : AwsFetcher :=
  { getAWSS3Client := fun _ => .ok c8Client, regions := ["eu-west-1"]
    accountID := "acc", lastResultS3 := [wPriorB1], now := 7 }

/-- The listed bucket "b1". -/
def wB1 : S3Bucket := ⟨some "b1"⟩

/-- A two-cell heap holding the prior and the fresh snapshot. -/
def w9Heap : S3Heap := ⟨[wPriorB1, wFreshB1]⟩

/-- All four field flags set. -/
def w9Flags : failedRequests :=
  { policyFailed := true, failedPolicyStatus := true, failedAcls := true
    failedTags := true, headFailed := false }

end AwsSync

namespace RedshiftServerless

/-- An available workgroup named "w1". -/
def w1 : Workgroup := ⟨some "w1", some "arn-w1", some "available"⟩

/-- A resource tag. -/
def wTag : RSSTag := ⟨some "env", some "prod"⟩

/-- The workgroup "w1" with its fetched tags. -/
def wgt1 : workgroupWithTags := ⟨w1, [wTag]⟩

/-- An endpoint referencing the listed workgroup "w1", available. -/
def epGood : EndpointAccess := ⟨some "ep1", some "w1", some "available"⟩

/-- An endpoint referencing the absent workgroup "w2". -/
def epOrphan : EndpointAccess := ⟨some "ep2", some "w2", some "available"⟩

/-- A client whose workgroup listing succeeds with one page and whose
VPC-endpoint listing fails. -/
def ce4Client : RSSClient :=
  { listWorkgroupsPages := fun _ => .page [w1] true
    listEndpointAccessPages := fun _ => .fail (.other "endpoint listing failure")
    listTagsForResource := fun _ => .ok [wTag] }

/-- The fetcher configuration around `ce4Client`. -/
def ce4Cfg : awsFetcherConfig := ⟨.ok ce4Client⟩

/-- A client whose workgroup listing itself fails. -/
def w4Client : RSSClient :=
  { listWorkgroupsPages := fun _ => .fail (.other "workgroup listing failure")
    listEndpointAccessPages := fun _ => .page [] true
    listTagsForResource := fun _ => .ok [] }

/-- The fetcher configuration around `w4Client`. -/
def w4Cfg : awsFetcherConfig := ⟨.ok w4Client⟩

/-- A client whose pagination sources never signal completion. -/
def ce5Client : RSSClient :=
  { listWorkgroupsPages := fun _ => .page [w1] false
    listEndpointAccessPages := fun _ => .page [epGood] false
    listTagsForResource := fun _ => .ok [] }

/-- A client listing "w1" and the two endpoints in one page each. -/
def c7Client : RSSClient :=
  { listWorkgroupsPages := fun _ => .page [w1] true
    listEndpointAccessPages := fun _ => .page [epGood, epOrphan] true
    listTagsForResource := fun _ => .ok [wTag] }

end RedshiftServerless

/-! ## Theorems -/

namespace AwsSync

/-- Two wraps around the same prefix are equal only when the appended
operation texts are equal. -/
theorem s3DetailErrEntry_what_eq {w1 w2 : String} {b : S3Bucket}
    {e1 e2 : ProviderError}
    (h : s3DetailErrEntry w1 b e1 = s3DetailErrEntry w2 b e2) : w1 = w2 := by
  unfold s3DetailErrEntry at h
  injection h with h1 _
  apply String.ext
  have h2 := congrArg String.data h1
  rw [String.data_append, String.data_append] at h2
  exact List.append_cancel_left h2

/-- Claim C1: the merged snapshot agrees with the prior snapshot on exactly
the fields whose failure flag is set (policy document, public-access flag,
ACLs, tags), agrees with the fresh snapshot on every other field, returns
fresh when prior is nil and prior when fresh is nil. -/
theorem mergeS3Protos_reconciles_per_field (prior fresh : AWSS3BucketV1)
    (flags : failedRequests) (p f : Option AWSS3BucketV1) :
    mergeS3Protos none f flags = f ∧
    mergeS3Protos p none flags = p ∧
    mergeS3Protos (some prior) (some fresh) flags = some
      { name := fresh.name
        accountId := fresh.accountId
        lastSyncTime := fresh.lastSyncTime
        policyDocument :=
          if flags.policyFailed then prior.policyDocument else fresh.policyDocument
        isPublic :=
          if flags.failedPolicyStatus then prior.isPublic else fresh.isPublic
        acls := if flags.failedAcls then prior.acls else fresh.acls
        tags := if flags.failedTags then prior.tags else fresh.tags } := by
  refine ⟨rfl, ?_, ?_⟩
  · cases p <;> rfl
  · rcases flags with ⟨fp, fs, fa, ft, fh⟩
    cases fp <;> cases fs <;> cases fa <;> cases ft <;> rfl

/-- Claim C3: when the top-level bucket listing fails, `fetchS3Buckets`
returns the previous cycle's result set unchanged together with a non-nil
error, and no per-bucket data is built or merged. -/
theorem fetchS3Buckets_listing_failure_returns_last (a : AwsFetcher)
    (e : TraceErr) (h : listS3Buckets a = .error e) :
    fetchS3Buckets a = (a.lastResultS3, some e) := by
  simp [fetchS3Buckets, h]

/-- Witness for C3 at `c3Fetcher`: the listing fails with the transport
error and the prior snapshot of "b1" is returned untouched. -/
theorem fetchS3Buckets_listing_failure_returns_last_witness :
    listS3Buckets c3Fetcher = .error (.prov (.other "listing transport failure")) ∧
    fetchS3Buckets c3Fetcher =
      ([wPriorB1], some (.prov (.other "listing transport failure"))) :=
  ⟨rfl, fetchS3Buckets_listing_failure_returns_last c3Fetcher _ rfl⟩

/-- Claim C10: a successful location call with an absent location constraint
resolves to "us-east-1" without error. -/
theorem s3GetBucketRegion_nil_location (client : S3Client)
    (bucket : Option String)
    (h : client.getBucketLocation bucket = .ok ⟨none⟩) :
    s3GetBucketRegion client bucket = .ok "us-east-1" := by
  simp [s3GetBucketRegion, h]

/-- Witness for C10 at `c10Client`. -/
theorem s3GetBucketRegion_nil_location_witness :
    c10Client.getBucketLocation (some "b1") = .ok ⟨none⟩ ∧
    s3GetBucketRegion c10Client (some "b1") = .ok "us-east-1" :=
  ⟨rfl, s3GetBucketRegion_nil_location c10Client (some "b1") rfl⟩

/-- Claim C9: over the heap model, merging two valid snapshot pointers leaves
every pre-existing heap cell — in particular both inputs — unchanged, and
returns a pointer to a freshly allocated cell holding exactly the pure merge
of the two inputs. -/
theorem mergeS3ProtosRef_no_mutation (h : S3Heap) (pe pn : Nat)
    (flags : failedRequests) (hpe : pe < h.cells.length)
    (hpn : pn < h.cells.length) :
    (∀ p, p < h.cells.length →
      (mergeS3ProtosRef h (some pe) (some pn) flags).1.cells[p]? = h.cells[p]?) ∧
    (mergeS3ProtosRef h (some pe) (some pn) flags).2 = some h.cells.length ∧
    h.cells.length ≠ pe ∧ h.cells.length ≠ pn ∧
    (mergeS3ProtosRef h (some pe) (some pn) flags).1.cells[h.cells.length]? =
      mergeS3Protos h.cells[pe]? h.cells[pn]? flags := by
  have he : h.cells[pe]? = some h.cells[pe] := List.getElem?_eq_getElem hpe
  have hn : h.cells[pn]? = some h.cells[pn] := List.getElem?_eq_getElem hpn
  refine ⟨?_, ?_, ?_, ?_, ?_⟩
  · intro p hp
    simp [mergeS3ProtosRef, he, hn, List.getElem?_append, hp]
  · simp [mergeS3ProtosRef, he, hn]
  · omega
  · omega
  · simp [mergeS3ProtosRef, he, hn, mergeS3Protos, List.getElem?_concat_length]

/-- Witness for C9 at the two-cell heap `w9Heap`. -/
theorem mergeS3ProtosRef_no_mutation_witness :
    0 < w9Heap.cells.length ∧ 1 < w9Heap.cells.length ∧
    (mergeS3ProtosRef w9Heap (some 0) (some 1) w9Flags).1.cells[0]? =
      w9Heap.cells[0]? ∧
    (mergeS3ProtosRef w9Heap (some 0) (some 1) w9Flags).1.cells[1]? =
      w9Heap.cells[1]? ∧
    (mergeS3ProtosRef w9Heap (some 0) (some 1) w9Flags).2 =
      some w9Heap.cells.length :=
  ⟨by decide, by decide,
   (mergeS3ProtosRef_no_mutation w9Heap 0 1 w9Flags (by decide) (by decide)).1
     0 (by decide),
   (mergeS3ProtosRef_no_mutation w9Heap 0 1 w9Flags (by decide) (by decide)).1
     1 (by decide),
   (mergeS3ProtosRef_no_mutation w9Heap 0 1 w9Flags (by decide) (by decide)).2.1⟩

end AwsSync

namespace AwsSync

/-- The sequential accumulation of `getS3BucketDetails` decomposes into the
four independent per-call contributions. -/
theorem getS3BucketDetails_decomposed (a : AwsFetcher) (bucket : S3Bucket)
    (region : String) (c : S3Client) (hc : a.getAWSS3Client region = .ok c) :
    getS3BucketDetails a bucket region =
      (⟨(policyFetchOf c bucket).1, (statusFetchOf c bucket).1,
        (aclFetchOf c bucket).1, (tagFetchOf c bucket).1⟩,
       ⟨(policyFetchOf c bucket).2.1, (statusFetchOf c bucket).2.1,
        (aclFetchOf c bucket).2.1, (tagFetchOf c bucket).2.1, false⟩,
       (policyFetchOf c bucket).2.2 ++ (statusFetchOf c bucket).2.2 ++
         (aclFetchOf c bucket).2.2 ++ (tagFetchOf c bucket).2.2) := by
  unfold getS3BucketDetails policyFetchOf statusFetchOf aclFetchOf tagFetchOf
  rw [hc]

/-- Every error the policy call contributes carries the "inline policy"
operation text. -/
theorem mem_policyFetchOf_errs {c : S3Client} {b : S3Bucket} {x : TraceErr}
    (h : x ∈ (policyFetchOf c b).2.2) :
    ∃ e, x = s3DetailErrEntry " inline policy" b e := by
  unfold policyFetchOf at h
  split at h
  · simp at h
  · split_ifs at h with hsoft
    · simp at h
    · simp at h
      exact ⟨_, h⟩

/-- Every error the policy-status call contributes carries the "policy
status" operation text. -/
theorem mem_statusFetchOf_errs {c : S3Client} {b : S3Bucket} {x : TraceErr}
    (h : x ∈ (statusFetchOf c b).2.2) :
    ∃ e, x = s3DetailErrEntry " policy status" b e := by
  unfold statusFetchOf at h
  split at h
  · simp at h
  · split_ifs at h with hsoft
    · simp at h
    · simp at h
      exact ⟨_, h⟩

/-- Every error the ACL call contributes carries the "acls policies"
operation text. -/
theorem mem_aclFetchOf_errs {c : S3Client} {b : S3Bucket} {x : TraceErr}
    (h : x ∈ (aclFetchOf c b).2.2) :
    ∃ e, x = s3DetailErrEntry " acls policies" b e := by
  unfold aclFetchOf at h
  split at h
  · simp at h
  · simp at h
    exact ⟨_, h⟩

/-- Every error the tagging call contributes carries the "tags" operation
text. -/
theorem mem_tagFetchOf_errs {c : S3Client} {b : S3Bucket} {x : TraceErr}
    (h : x ∈ (tagFetchOf c b).2.2) :
    ∃ e, x = s3DetailErrEntry " tags" b e := by
  unfold tagFetchOf at h
  split at h
  · simp at h
  · split_ifs at h with hsoft
    · simp at h
    · simp at h
      exact ⟨_, h⟩

/-- Claim C2: an error classified as legitimate absence (`NoSuchBucketPolicy`
for the policy and policy-status calls, `NoSuchTagSet` for the tags call)
never appears in the returned error list and never sets the corresponding
failure flag, while every other error on any of the four sub-fetches both
appends its wrapped error to the list and sets that field's flag. -/
theorem getS3BucketDetails_soft_absence (a : AwsFetcher)
    (bucket : S3Bucket) (region : String) (c : S3Client)
    (hc : a.getAWSS3Client region = .ok c) :
    (∀ e, c.getBucketPolicy bucket.name = .error e →
      (isS3BucketPolicyNotFound e = true →
        (getS3BucketDetails a bucket region).2.1.policyFailed = false ∧
        s3DetailErrEntry " inline policy" bucket e ∉
          (getS3BucketDetails a bucket region).2.2) ∧
      (isS3BucketPolicyNotFound e = false →
        (getS3BucketDetails a bucket region).2.1.policyFailed = true ∧
        s3DetailErrEntry " inline policy" bucket e ∈
          (getS3BucketDetails a bucket region).2.2)) ∧
    (∀ e, c.getBucketPolicyStatus bucket.name = .error e →
      (isS3BucketPolicyNotFound e = true →
        (getS3BucketDetails a bucket region).2.1.failedPolicyStatus = false ∧
        s3DetailErrEntry " policy status" bucket e ∉
          (getS3BucketDetails a bucket region).2.2) ∧
      (isS3BucketPolicyNotFound e = false →
        (getS3BucketDetails a bucket region).2.1.failedPolicyStatus = true ∧
        s3DetailErrEntry " policy status" bucket e ∈
          (getS3BucketDetails a bucket region).2.2)) ∧
    (∀ e, c.getBucketAcl bucket.name = .error e →
      (getS3BucketDetails a bucket region).2.1.failedAcls = true ∧
      s3DetailErrEntry " acls policies" bucket e ∈
        (getS3BucketDetails a bucket region).2.2) ∧
    (∀ e, c.getBucketTagging bucket.name = .error e →
      (isS3BucketNoTagSet e = true →
        (getS3BucketDetails a bucket region).2.1.failedTags = false ∧
        s3DetailErrEntry " tags" bucket e ∉
          (getS3BucketDetails a bucket region).2.2) ∧
      (isS3BucketNoTagSet e = false →
        (getS3BucketDetails a bucket region).2.1.failedTags = true ∧
        s3DetailErrEntry " tags" bucket e ∈
          (getS3BucketDetails a bucket region).2.2)) := by
  rw [getS3BucketDetails_decomposed a bucket region c hc]
  refine ⟨?_, ?_, ?_, ?_⟩
  · intro e hP
    constructor
    · intro hsoft
      constructor
      · simp [policyFetchOf, hP, hsoft]
      · intro hmem
        simp [policyFetchOf, hP, hsoft] at hmem
        rcases hmem with hm | hm | hm
        · rcases mem_statusFetchOf_errs hm with ⟨e', he'⟩
          exact absurd (s3DetailErrEntry_what_eq he') (by decide)
        · rcases mem_aclFetchOf_errs hm with ⟨e', he'⟩
          exact absurd (s3DetailErrEntry_what_eq he') (by decide)
        · rcases mem_tagFetchOf_errs hm with ⟨e', he'⟩
          exact absurd (s3DetailErrEntry_what_eq he') (by decide)
    · intro hhard
      constructor
      · simp [policyFetchOf, hP, hhard]
      · simp [policyFetchOf, hP, hhard, List.mem_append]
  · intro e hS
    constructor
    · intro hsoft
      constructor
      · simp [statusFetchOf, hS, hsoft]
      · intro hmem
        simp [statusFetchOf, hS, hsoft] at hmem
        rcases hmem with hm | hm | hm
        · rcases mem_policyFetchOf_errs hm with ⟨e', he'⟩
          exact absurd (s3DetailErrEntry_what_eq he') (by decide)
        · rcases mem_aclFetchOf_errs hm with ⟨e', he'⟩
          exact absurd (s3DetailErrEntry_what_eq he') (by decide)
        · rcases mem_tagFetchOf_errs hm with ⟨e', he'⟩
          exact absurd (s3DetailErrEntry_what_eq he') (by decide)
    · intro hhard
      constructor
      · simp [statusFetchOf, hS, hhard]
      · simp [statusFetchOf, hS, hhard, List.mem_append]
  · intro e hA
    constructor
    · simp [aclFetchOf, hA]
    · simp [aclFetchOf, hA, List.mem_append]
  · intro e hT
    constructor
    · intro hsoft
      constructor
      · simp [tagFetchOf, hT, hsoft]
      · intro hmem
        simp [tagFetchOf, hT, hsoft] at hmem
        rcases hmem with hm | hm | hm
        · rcases mem_policyFetchOf_errs hm with ⟨e', he'⟩
          exact absurd (s3DetailErrEntry_what_eq he') (by decide)
        · rcases mem_statusFetchOf_errs hm with ⟨e', he'⟩
          exact absurd (s3DetailErrEntry_what_eq he') (by decide)
        · rcases mem_aclFetchOf_errs hm with ⟨e', he'⟩
          exact absurd (s3DetailErrEntry_what_eq he') (by decide)
    · intro hhard
      constructor
      · simp [tagFetchOf, hT, hhard]
      · simp [tagFetchOf, hT, hhard, List.mem_append]

/-- Witness for C2 at `c2Fetcher` and bucket "b1": the soft policy and tag
absences set no flag and record no error, the hard policy-status and ACL
failures set their flags and record their wrapped errors. -/
theorem getS3BucketDetails_soft_absence_witness :
    c2Fetcher.getAWSS3Client "eu-west-1" = .ok c2Client ∧
    c2Client.getBucketPolicy wB1.name =
      .error (.awsErr "NoSuchBucketPolicy" "absent") ∧
    ((getS3BucketDetails c2Fetcher wB1 "eu-west-1").2.1.policyFailed = false ∧
      s3DetailErrEntry " inline policy" wB1 (.awsErr "NoSuchBucketPolicy" "absent") ∉
        (getS3BucketDetails c2Fetcher wB1 "eu-west-1").2.2) ∧
    ((getS3BucketDetails c2Fetcher wB1 "eu-west-1").2.1.failedPolicyStatus = true ∧
      s3DetailErrEntry " policy status" wB1 (.other "status transport failure") ∈
        (getS3BucketDetails c2Fetcher wB1 "eu-west-1").2.2) ∧
    ((getS3BucketDetails c2Fetcher wB1 "eu-west-1").2.1.failedAcls = true ∧
      s3DetailErrEntry " acls policies" wB1 (.awsErr "AccessDenied" "denied") ∈
        (getS3BucketDetails c2Fetcher wB1 "eu-west-1").2.2) ∧
    ((getS3BucketDetails c2Fetcher wB1 "eu-west-1").2.1.failedTags = false ∧
      s3DetailErrEntry " tags" wB1 (.awsErr "NoSuchTagSet" "no tags") ∉
        (getS3BucketDetails c2Fetcher wB1 "eu-west-1").2.2) :=
  ⟨rfl, rfl,
   ((getS3BucketDetails_soft_absence c2Fetcher wB1 "eu-west-1" c2Client rfl).1
     _ rfl).1 (by decide),
   ((getS3BucketDetails_soft_absence c2Fetcher wB1 "eu-west-1" c2Client rfl).2.1
     _ rfl).2 (by decide),
   (getS3BucketDetails_soft_absence c2Fetcher wB1 "eu-west-1" c2Client rfl).2.2.1
     _ rfl,
   ((getS3BucketDetails_soft_absence c2Fetcher wB1 "eu-west-1" c2Client rfl).2.2.2
     _ rfl).1 (by decide)⟩

end AwsSync

namespace AwsSync

/-- Merging any prior pointer with a present fresh snapshot always yields a
snapshot. -/
theorem mergeS3Protos_some_new (ex : Option AWSS3BucketV1) (nb : AWSS3BucketV1)
    (flags : failedRequests) :
    ∃ m, mergeS3Protos ex (some nb) flags = some m := by
  cases ex <;> exact ⟨_, rfl⟩

/-- Every per-bucket task hands a present snapshot to `collect`. -/
theorem s3TaskPair_fst_some (a : AwsFetcher)
    (gbr : Option String → Except TraceErr String) (b : S3Bucket) :
    ∃ m, (s3TaskPair a gbr b).1 = some m := by
  rcases hr : gbr b.name with e | r <;>
    simp only [s3TaskPair, hr] <;>
    exact mergeS3Protos_some_new _ _ _

/-- The collected snapshot list is the per-bucket task outputs in dispatch
order. -/
theorem runS3Tasks_fst (a : AwsFetcher)
    (gbr : Option String → Except TraceErr String) (bs : List S3Bucket) :
    (runS3Tasks a gbr bs).1 = bs.filterMap fun b => (s3TaskPair a gbr b).1 := by
  induction bs with
  | nil => rfl
  | cons b rest ih =>
    rcases h : (s3TaskPair a gbr b).1 with _ | m <;>
      simp [runS3Tasks, s3BucketTask, h, ih]

/-- The collected error list is the per-bucket task errors in dispatch
order. -/
theorem runS3Tasks_snd (a : AwsFetcher)
    (gbr : Option String → Except TraceErr String) (bs : List S3Bucket) :
    (runS3Tasks a gbr bs).2 = bs.filterMap fun b => (s3TaskPair a gbr b).2 := by
  induction bs with
  | nil => rfl
  | cons b rest ih =>
    rcases h : (s3TaskPair a gbr b).2 with _ | e <;>
      simp [runS3Tasks, s3BucketTask, h, ih]

/-- Every listed bucket contributes exactly one collected snapshot. -/
theorem runS3Tasks_fst_length (a : AwsFetcher)
    (gbr : Option String → Except TraceErr String) (bs : List S3Bucket) :
    (runS3Tasks a gbr bs).1.length = bs.length := by
  induction bs with
  | nil => rfl
  | cons b rest ih =>
    rcases s3TaskPair_fst_some a gbr b with ⟨m, hm⟩
    simp [runS3Tasks, s3BucketTask, hm, ih]

/-- On a successful listing the cycle's snapshots are the per-bucket task
outputs. -/
theorem fetchS3Buckets_ok_fst (a : AwsFetcher) (buckets : List S3Bucket)
    (gbr : Option String → Except TraceErr String)
    (hl : listS3Buckets a = .ok (buckets, gbr)) :
    (fetchS3Buckets a).1 = buckets.filterMap fun b => (s3TaskPair a gbr b).1 := by
  simp [fetchS3Buckets, hl, runS3Tasks_fst]

/-- On a successful listing the cycle's error is the aggregate of every
per-bucket task error. -/
theorem fetchS3Buckets_ok_snd (a : AwsFetcher) (buckets : List S3Bucket)
    (gbr : Option String → Except TraceErr String)
    (hl : listS3Buckets a = .ok (buckets, gbr)) :
    (fetchS3Buckets a).2 =
      NewAggregate (buckets.filterMap fun b => (s3TaskPair a gbr b).2) := by
  simp [fetchS3Buckets, hl, runS3Tasks_snd]

/-- On a successful listing the cycle returns one snapshot per listed
bucket. -/
theorem fetchS3Buckets_ok_length (a : AwsFetcher) (buckets : List S3Bucket)
    (gbr : Option String → Except TraceErr String)
    (hl : listS3Buckets a = .ok (buckets, gbr)) :
    (fetchS3Buckets a).1.length = buckets.length := by
  simp [fetchS3Buckets, hl, runS3Tasks_fst_length]

/-- Claim C8: every per-bucket task returns nil to the errgroup (so the group
never cancels early), and the runner returns the contribution of every
dispatched task — one snapshot per listed bucket — together with every
collected error as one aggregate; it never returns early on a task error.
The single mutex-guarded collector is modelled by the sequential accumulation
`runS3Tasks`, the only channel through which task outcomes reach the
result. -/
theorem fetchS3Buckets_full_collection (a : AwsFetcher)
    (buckets : List S3Bucket)
    (gbr : Option String → Except TraceErr String) (b : S3Bucket)
    (hl : listS3Buckets a = .ok (buckets, gbr)) :
    (s3BucketTask a gbr b).2 = none ∧
    (fetchS3Buckets a).1 = (buckets.filterMap fun x => (s3TaskPair a gbr x).1) ∧
    (fetchS3Buckets a).1.length = buckets.length ∧
    (fetchS3Buckets a).2 =
      NewAggregate (buckets.filterMap fun x => (s3TaskPair a gbr x).2) :=
  ⟨rfl, fetchS3Buckets_ok_fst a buckets gbr hl,
   fetchS3Buckets_ok_length a buckets gbr hl,
   fetchS3Buckets_ok_snd a buckets gbr hl⟩

/-- Witness for C8 at `c8Fetcher`: two buckets, failing ACL calls; the task
returns nil, both buckets are in the output, and the errors are aggregated. -/
theorem fetchS3Buckets_full_collection_witness :
    listS3Buckets c8Fetcher =
      .ok ([wB1, ⟨some "b2"⟩], s3GetBucketRegion c8Client) ∧
    (s3BucketTask c8Fetcher (s3GetBucketRegion c8Client) wB1).2 = none ∧
    (fetchS3Buckets c8Fetcher).1.length = [wB1, ⟨some "b2"⟩].length ∧
    (fetchS3Buckets c8Fetcher).2 =
      NewAggregate ([wB1, ⟨some "b2"⟩].filterMap fun x =>
        (s3TaskPair c8Fetcher (s3GetBucketRegion c8Client) x).2) :=
  ⟨rfl,
   (fetchS3Buckets_full_collection c8Fetcher [wB1, ⟨some "b2"⟩]
     (s3GetBucketRegion c8Client) wB1 rfl).1,
   (fetchS3Buckets_full_collection c8Fetcher [wB1, ⟨some "b2"⟩]
     (s3GetBucketRegion c8Client) wB1 rfl).2.2.1,
   (fetchS3Buckets_full_collection c8Fetcher [wB1, ⟨some "b2"⟩]
     (s3GetBucketRegion c8Client) wB1 rfl).2.2.2⟩

/-- Claim C6: when a listed bucket's region lookup fails, the task sets all
four field failure flags, builds the identity-only snapshot (bare name and
account, empty decoration), merges it against the prior snapshot — restoring
every flagged field from history when a prior exists — and the bucket still
appears in the cycle's output, which keeps one snapshot per listed bucket. -/
theorem region_failure_keeps_bucket (a : AwsFetcher) (buckets : List S3Bucket)
    (gbr : Option String → Except TraceErr String) (b : S3Bucket) (e : TraceErr)
    (hl : listS3Buckets a = .ok (buckets, gbr)) (hb : b ∈ buckets)
    (he : gbr b.name = .error e) :
    awsS3Bucket (awsToString b.name) none none none none a.accountID a.now =
      { name := awsToString b.name, accountId := a.accountID
        lastSyncTime := a.now, policyDocument := none, isPublic := false
        acls := [], tags := [] } ∧
    (s3TaskPair a gbr b).1 =
      mergeS3Protos
        (sliceFilterPickFirst a.lastResultS3 fun x =>
          x.name == awsToString b.name && x.accountId == a.accountID)
        (some (awsS3Bucket (awsToString b.name) none none none none
          a.accountID a.now))
        ⟨true, true, true, true, false⟩ ∧
    (∀ p m,
      sliceFilterPickFirst a.lastResultS3 (fun x =>
        x.name == awsToString b.name && x.accountId == a.accountID) = some p →
      (s3TaskPair a gbr b).1 = some m →
      m.policyDocument = p.policyDocument ∧ m.isPublic = p.isPublic ∧
      m.acls = p.acls ∧ m.tags = p.tags ∧
      m.name = awsToString b.name ∧ m.accountId = a.accountID) ∧
    (∃ m, (s3TaskPair a gbr b).1 = some m ∧ m ∈ (fetchS3Buckets a).1) ∧
    (fetchS3Buckets a).1.length = buckets.length := by
  have htask : (s3TaskPair a gbr b).1 =
      mergeS3Protos
        (sliceFilterPickFirst a.lastResultS3 fun x =>
          x.name == awsToString b.name && x.accountId == a.accountID)
        (some (awsS3Bucket (awsToString b.name) none none none none
          a.accountID a.now))
        ⟨true, true, true, true, false⟩ := by
    simp [s3TaskPair, he]
  refine ⟨rfl, htask, ?_, ?_, fetchS3Buckets_ok_length a buckets gbr hl⟩
  · intro p m hp hm
    rw [htask, hp] at hm
    simp only [mergeS3Protos, mergeS3Fields, if_true, Option.some.injEq] at hm
    subst hm
    simp [awsS3Bucket]
  · rcases s3TaskPair_fst_some a gbr b with ⟨m, hm⟩
    refine ⟨m, hm, ?_⟩
    rw [fetchS3Buckets_ok_fst a buckets gbr hl]
    exact List.mem_filterMap.mpr ⟨b, hb, hm⟩

/-- Witness for C6 at `c6Fetcher`: the location call for "b1" fails, yet the
bucket is in the output and the cycle returns one snapshot per bucket. -/
theorem region_failure_keeps_bucket_witness :
    listS3Buckets c6Fetcher = .ok ([wB1], s3GetBucketRegion c6Client) ∧
    wB1 ∈ [wB1] ∧
    s3GetBucketRegion c6Client wB1.name =
      .error (.wrap "failed to fetch bucket b1 region"
        (.prov (.other "location failure"))) ∧
    (∃ m, (s3TaskPair c6Fetcher (s3GetBucketRegion c6Client) wB1).1 = some m ∧
      m ∈ (fetchS3Buckets c6Fetcher).1) ∧
    (fetchS3Buckets c6Fetcher).1.length = [wB1].length :=
  ⟨rfl, by simp, rfl,
   (region_failure_keeps_bucket c6Fetcher [wB1] (s3GetBucketRegion c6Client)
     wB1 _ rfl (by simp) rfl).2.2.2.1,
   (region_failure_keeps_bucket c6Fetcher [wB1] (s3GetBucketRegion c6Client)
     wB1 _ rfl (by simp) rfl).2.2.2.2⟩

end AwsSync

namespace RedshiftServerless

/-- A pagination source that never signals completion and never fails is
collected for exactly one page past the cap, in arrival order. -/
theorem awsPagesLoop_never_last {α : Type} (p : Nat → List α) :
    ∀ n i (pages : List (List α)), pages.length + n = maxAWSPages →
      awsPagesLoop (fun j => PageResult.page (p j) false) i pages =
        (pages ++ (List.range' i (n + 1)).map p, none) := by
  intro n
  induction n with
  | zero =>
    intro i pages hlen
    rw [awsPagesLoop]
    have hc : ¬(pages.length + 1 ≤ maxAWSPages) := by omega
    simp [hc, List.range'_one]
  | succ k ih =>
    intro i pages hlen
    rw [awsPagesLoop]
    have hc : pages.length + 1 ≤ maxAWSPages := by omega
    have hlen' : (pages ++ [p i]).length + k = maxAWSPages := by
      simp
      omega
    simp [hc]
    rw [ih (i + 1) (pages ++ [p i]) hlen']
    simp [List.range'_succ]

/-- For every pagination source the loop collects at most one page past the
cap (starting from the empty accumulator: at most `maxAWSPages + 1`). -/
theorem awsPagesLoop_length_le {α : Type} (source : Nat → PageResult α)
    (i : Nat) (pages : List (List α)) :
    (awsPagesLoop source i pages).1.length ≤
      max (pages.length + 1) (maxAWSPages + 1) := by
  induction i, pages using awsPagesLoop.induct source with
  | case1 i pages e hsrc =>
    rw [awsPagesLoop]
    simp [hsrc]
  | case2 i pages items last hsrc hcond ih =>
    rw [awsPagesLoop]
    simp only [hsrc]
    rw [dif_pos hcond]
    have h1 := hcond.1
    simp [List.length_append] at h1 ih ⊢
    omega
  | case3 i pages items last hsrc hcond =>
    rw [awsPagesLoop]
    simp only [hsrc]
    rw [dif_neg hcond]
    simp [List.length_append]

/-- Claim C5 (amended): the collectors terminate on every pagination source —
Lean's acceptance of `awsPagesLoop` is the termination argument — and
accumulate at most `maxAWSPages + 1` pages (one page past the cap, because
the callback stops only once the collected count exceeds the cap); on a
source that never signals completion, the workgroup and VPC-endpoint
collectors return exactly the first `maxAWSPages + 1` pages concatenated in
arrival order. -/
theorem pagination_cap_plus_one (α : Type) (source : Nat → PageResult α)
    (p : Nat → List Workgroup) (q : Nat → List EndpointAccess)
    (client : RSSClient)
    (hw : client.listWorkgroupsPages = fun i => PageResult.page (p i) false)
    (he : client.listEndpointAccessPages = fun i => PageResult.page (q i) false) :
    (awsPagesLoop source 0 []).1.length ≤ maxAWSPages + 1 ∧
    getRSSWorkgroups client =
      (((List.range' 0 (maxAWSPages + 1)).map p).flatten, none) ∧
    getRSSVPCEndpoints client =
      (((List.range' 0 (maxAWSPages + 1)).map q).flatten, none) := by
  refine ⟨?_, ?_, ?_⟩
  · have h := awsPagesLoop_length_le source 0 []
    simpa using h
  · unfold getRSSWorkgroups
    rw [hw, awsPagesLoop_never_last p maxAWSPages 0 [] (by simp)]
    simp
  · unfold getRSSVPCEndpoints
    rw [he, awsPagesLoop_never_last q maxAWSPages 0 [] (by simp)]
    simp

/-- Witness for C5 (amended) at `ce5Client`, whose sources never signal
completion. -/
theorem pagination_cap_plus_one_witness :
    (ce5Client.listWorkgroupsPages = fun i => PageResult.page [w1] false) ∧
    (ce5Client.listEndpointAccessPages =
      fun i => PageResult.page [epGood] false) ∧
    (awsPagesLoop ce5Client.listWorkgroupsPages 0 []).1.length ≤
      maxAWSPages + 1 ∧
    getRSSWorkgroups ce5Client =
      (((List.range' 0 (maxAWSPages + 1)).map fun _ => [w1]).flatten, none) ∧
    getRSSVPCEndpoints ce5Client =
      (((List.range' 0 (maxAWSPages + 1)).map fun _ => [epGood]).flatten,
        none) :=
  ⟨rfl, rfl,
   (pagination_cap_plus_one Workgroup ce5Client.listWorkgroupsPages
     (fun _ => [w1]) (fun _ => [epGood]) ce5Client rfl rfl).1,
   (pagination_cap_plus_one Workgroup ce5Client.listWorkgroupsPages
     (fun _ => [w1]) (fun _ => [epGood]) ce5Client rfl rfl).2.1,
   (pagination_cap_plus_one Workgroup ce5Client.listWorkgroupsPages
     (fun _ => [w1]) (fun _ => [epGood]) ce5Client rfl rfl).2.2⟩

/-- Counterexample to C5 as stated: on a source that never signals
completion, the workgroup collector accumulates `maxAWSPages + 1` single-item
pages — strictly more than the claimed cap of `maxAWSPages` pages. -/
theorem pagination_exceeds_cap :
    (awsPagesLoop ce5Client.listWorkgroupsPages 0 []).1.length =
      maxAWSPages + 1 ∧
    ¬((awsPagesLoop ce5Client.listWorkgroupsPages 0 []).1.length ≤
        maxAWSPages) ∧
    (getRSSWorkgroups ce5Client).1.length = maxAWSPages + 1 := by
  have h : awsPagesLoop ce5Client.listWorkgroupsPages 0 [] =
      (((List.range' 0 (maxAWSPages + 1)).map fun _ => [w1]), none) :=
    awsPagesLoop_never_last (fun _ => [w1]) maxAWSPages 0 [] (by simp)
  refine ⟨?_, ?_, ?_⟩
  · rw [h]
    rfl
  · rw [h]
    decide
  · unfold getRSSWorkgroups
    rw [h]
    rfl

/-- Claim C4 (amended): once the plugin has its client, a failure of the
top-level workgroup listing aborts the Redshift Serverless cycle and is
propagated as the cycle's error; a failure of the VPC-endpoint relation
listing, however, is only logged — the cycle still returns the workgroup
databases with no error. -/
theorem rss_listing_failure_split (cfg : awsFetcherConfig) (client : RSSClient)
    (ws : List Workgroup) (hc : cfg.getClient = .ok client) :
    (∀ e, getRSSWorkgroups client = (ws, some e) →
      GetDatabases cfg = .error e) ∧
    (∀ eps e2, getRSSWorkgroups client = (ws, none) →
      getRSSVPCEndpoints client = (eps, some e2) →
      GetDatabases cfg = .ok (workgroupsToDatabases client ws).1) := by
  constructor
  · intro e hw
    simp [GetDatabases, hc, getDatabasesFromWorkgroups, hw]
  · intro eps e2 hw hE
    simp only [GetDatabases, hc, getDatabasesFromWorkgroups, hw,
      getDatabasesFromVPCEndpoints, hE]
    split <;> simp

/-- Witness for C4 (amended): at `w4Cfg` the workgroup listing failure is
propagated; at `ce4Cfg` the endpoint listing failure is swallowed and the
workgroup databases are returned. -/
theorem rss_listing_failure_split_witness :
    w4Cfg.getClient = .ok w4Client ∧
    getRSSWorkgroups w4Client =
      ([], some (.prov (.other "workgroup listing failure"))) ∧
    GetDatabases w4Cfg = .error (.prov (.other "workgroup listing failure")) ∧
    ce4Cfg.getClient = .ok ce4Client ∧
    getRSSWorkgroups ce4Client = ([w1], none) ∧
    getRSSVPCEndpoints ce4Client =
      ([], some (.prov (.other "endpoint listing failure"))) ∧
    GetDatabases ce4Cfg = .ok (workgroupsToDatabases ce4Client [w1]).1 := by
  have hW4 : getRSSWorkgroups w4Client =
      ([], some (.prov (.other "workgroup listing failure"))) := by
    unfold getRSSWorkgroups
    rw [awsPagesLoop]
    rfl
  have hWce : getRSSWorkgroups ce4Client = ([w1], none) := by
    unfold getRSSWorkgroups
    rw [awsPagesLoop]
    rfl
  have hEce : getRSSVPCEndpoints ce4Client =
      ([], some (.prov (.other "endpoint listing failure"))) := by
    unfold getRSSVPCEndpoints
    rw [awsPagesLoop]
    rfl
  exact ⟨rfl, hW4,
    (rss_listing_failure_split w4Cfg w4Client [] rfl).1 _ hW4,
    rfl, hWce, hEce,
    (rss_listing_failure_split ce4Cfg ce4Client [w1] rfl).2 [] _ hWce hEce⟩

/-- Counterexample to C4 as stated: at `ce4Cfg` the VPC-endpoint relation
listing fails, yet `GetDatabases` neither aborts nor propagates the error —
it returns the workgroup database with a nil error. -/
theorem rss_endpoint_listing_failure_not_propagated :
    getRSSVPCEndpoints ce4Client =
      ([], some (.prov (.other "endpoint listing failure"))) ∧
    GetDatabases ce4Cfg = .ok [⟨"w1", [wTag], none⟩] := by
  have hE : getRSSVPCEndpoints ce4Client =
      ([], some (.prov (.other "endpoint listing failure"))) := by
    unfold getRSSVPCEndpoints
    rw [awsPagesLoop]
    rfl
  have hW : getRSSWorkgroups ce4Client = ([w1], none) := by
    unfold getRSSWorkgroups
    rw [awsPagesLoop]
    rfl
  refine ⟨hE, ?_⟩
  simp only [GetDatabases, ce4Cfg, getDatabasesFromWorkgroups, hW,
    getDatabasesFromVPCEndpoints, hE]
  have hwd : workgroupsToDatabases ce4Client [w1] =
      ([⟨"w1", [wTag], none⟩], [⟨w1, [wTag]⟩]) := by decide
  rw [hwd]
  simp

/-- A database collected from the remaining endpoints is still collected
when one more endpoint is prepended. -/
theorem vpc_mem_mono (workgroups : List workgroupWithTags)
    (e : EndpointAccess) (rest : List EndpointAccess) {x : Database}
    (hx : x ∈ vpcEndpointsToDatabases workgroups rest) :
    x ∈ vpcEndpointsToDatabases workgroups (e :: rest) := by
  unfold vpcEndpointsToDatabases
  cases hf : findWorkgroupWithName workgroups
      (AwsSync.awsToString e.workgroupName) with
  | none => simpa using hx
  | some wg =>
    by_cases ha : IsResourceAvailable e.endpointStatus = false
    · simpa [ha] using hx
    · simp only [ha, if_false, NewDatabaseFromRedshiftServerlessVPCEndpoint]
      exact List.mem_cons_of_mem _ hx

/-- Every listed endpoint whose referenced workgroup is found and whose
status is available contributes a database attributed with that workgroup's
tags. -/
theorem vpc_output_of_found (workgroups : List workgroupWithTags) :
    ∀ (endpoints : List EndpointAccess) (ep : EndpointAccess)
      (wg : workgroupWithTags), ep ∈ endpoints →
      findWorkgroupWithName workgroups (AwsSync.awsToString ep.workgroupName) =
        some wg →
      IsResourceAvailable ep.endpointStatus = true →
      ∃ db, db ∈ vpcEndpointsToDatabases workgroups endpoints ∧
        db.labels = wg.tags ∧ db.endpointName = ep.endpointName := by
  intro endpoints
  induction endpoints with
  | nil => simp
  | cons e rest ih =>
    intro ep wg hm hf ha
    rcases List.mem_cons.mp hm with rfl | hm'
    · refine ⟨⟨AwsSync.awsToString wg.workgroup.workgroupName ++ "-" ++
        AwsSync.awsToString ep.endpointName, wg.tags, ep.endpointName⟩,
        ?_, rfl, rfl⟩
      simp [vpcEndpointsToDatabases, hf, ha,
        NewDatabaseFromRedshiftServerlessVPCEndpoint]
    · rcases ih ep wg hm' hf ha with ⟨db, hdb, hl, he⟩
      exact ⟨db, vpc_mem_mono workgroups e rest hdb, hl, he⟩

/-- An endpoint whose referenced workgroup is absent contributes nothing:
removing it from the listing leaves the output unchanged. -/
theorem vpc_skip_orphan (workgroups : List workgroupWithTags)
    (ep : EndpointAccess)
    (hf : findWorkgroupWithName workgroups
      (AwsSync.awsToString ep.workgroupName) = none) :
    ∀ (pre post : List EndpointAccess),
      vpcEndpointsToDatabases workgroups (pre ++ ep :: post) =
        vpcEndpointsToDatabases workgroups (pre ++ post) := by
  intro pre
  induction pre with
  | nil =>
    intro post
    simp [vpcEndpointsToDatabases, hf]
  | cons e pre' ih =>
    intro post
    simp only [List.cons_append]
    unfold vpcEndpointsToDatabases
    cases hf2 : findWorkgroupWithName workgroups
        (AwsSync.awsToString e.workgroupName) with
    | none => exact ih post
    | some wg =>
      by_cases ha : IsResourceAvailable e.endpointStatus = false
      · simp only [ha, if_true]
        exact ih post
      · simp only [ha, if_false, NewDatabaseFromRedshiftServerlessVPCEndpoint]
        rw [ih post]

/-- Claim C7: on a successful endpoint listing, an endpoint whose referenced
workgroup name is found among the fetched workgroups and whose status is
available yields a database record attributed with that workgroup's tags; an
endpoint whose workgroup is absent is skipped without error and without
affecting the remaining databases, and the cycle returns the collected
databases with no error. -/
theorem vpc_endpoint_matched_or_skipped (workgroups : List workgroupWithTags)
    (client : RSSClient) (endpoints : List EndpointAccess)
    (ep : EndpointAccess) (wg : workgroupWithTags)
    (hlist : getRSSVPCEndpoints client = (endpoints, none)) :
    (ep ∈ endpoints →
      findWorkgroupWithName workgroups
        (AwsSync.awsToString ep.workgroupName) = some wg →
      IsResourceAvailable ep.endpointStatus = true →
      ∃ db, db ∈ vpcEndpointsToDatabases workgroups endpoints ∧
        db.labels = wg.tags ∧ db.endpointName = ep.endpointName) ∧
    (∀ pre post, endpoints = pre ++ ep :: post →
      findWorkgroupWithName workgroups
        (AwsSync.awsToString ep.workgroupName) = none →
      vpcEndpointsToDatabases workgroups endpoints =
        vpcEndpointsToDatabases workgroups (pre ++ post)) ∧
    getDatabasesFromVPCEndpoints workgroups client =
      .ok (vpcEndpointsToDatabases workgroups endpoints) := by
  refine ⟨?_, ?_, ?_⟩
  · intro hm hf ha
    exact vpc_output_of_found workgroups endpoints ep wg hm hf ha
  · intro pre post hsplit hf
    rw [hsplit]
    exact vpc_skip_orphan workgroups ep hf pre post
  · simp [getDatabasesFromVPCEndpoints, hlist]

/-- Witness for C7 at `c7Client`: "ep1" references the listed workgroup "w1"
and is attributed with its tags; "ep2" references the absent "w2" and is
skipped while the cycle still succeeds. -/
theorem vpc_endpoint_matched_or_skipped_witness :
    getRSSVPCEndpoints c7Client = ([epGood, epOrphan], none) ∧
    epGood ∈ [epGood, epOrphan] ∧
    findWorkgroupWithName [wgt1]
      (AwsSync.awsToString epGood.workgroupName) = some wgt1 ∧
    IsResourceAvailable epGood.endpointStatus = true ∧
    (∃ db, db ∈ vpcEndpointsToDatabases [wgt1] [epGood, epOrphan] ∧
      db.labels = wgt1.tags ∧ db.endpointName = epGood.endpointName) ∧
    findWorkgroupWithName [wgt1]
      (AwsSync.awsToString epOrphan.workgroupName) = none ∧
    vpcEndpointsToDatabases [wgt1] [epGood, epOrphan] =
      vpcEndpointsToDatabases [wgt1] ([epGood] ++ []) ∧
    getDatabasesFromVPCEndpoints [wgt1] c7Client =
      .ok (vpcEndpointsToDatabases [wgt1] [epGood, epOrphan]) := by
  have hlist : getRSSVPCEndpoints c7Client = ([epGood, epOrphan], none) := by
    unfold getRSSVPCEndpoints
    rw [awsPagesLoop]
    rfl
  refine ⟨hlist, by simp, by decide, by decide, ?_, by decide, ?_, ?_⟩
  · exact (vpc_endpoint_matched_or_skipped [wgt1] c7Client [epGood, epOrphan]
      epGood wgt1 hlist).1 (by simp) (by decide) (by decide)
  · exact (vpc_endpoint_matched_or_skipped [wgt1] c7Client [epGood, epOrphan]
      epOrphan wgt1 hlist).2.1 [epGood] [] rfl (by decide)
  · exact (vpc_endpoint_matched_or_skipped [wgt1] c7Client [epGood, epOrphan]
      epGood wgt1 hlist).2.2

end RedshiftServerless
